import Mathlib

/-
  Verification of the GIZMO orchestrator against its specification.

  The definitions below are a shallow embedding of the Python sources:
    - src/orchestrator/sandbox.py  (SecureSandbox: diff parsing, critical-file
      protection, hunk application, apply_patch, cleanup)
    - src/orchestrator/engine.py   (MemoryLayer, RealLLM validators,
      Orchestrator: admission, quarantine, event emission, task execution,
      task lookup)

  Python strings are modelled as Lean String values; the handful of string
  operations the sources use (split, startswith, containment, lower, strip of
  a prefix) are re-implemented over the underlying character list so that all
  predicates are executable and kernel-decidable.  Python dicts are modelled
  as association lists, the Python float produced by the one division in the
  sources is modelled as an exact fraction, and the ZeroDivisionError that
  division can raise is modelled by Option (none = the exception escapes).
-/

deriving instance DecidableEq for Except

namespace Gizmo

/-! ### String primitives (Python semantics, over character lists) -/

/-- Python s.startswith(pre): pre.data is a prefix of s.data. -/
def prefixOfB : List Char → List Char → Bool
  | [], _ => true
  | _ :: _, [] => false
  | a :: as, b :: bs => a == b && prefixOfB as bs

/-- Python s.startswith(pre). -/
def pyStartsWith (s pre : String) : Bool := prefixOfB pre.data s.data

/-- Helper for Python substring containment: pat occurs in l. -/
def sublistOfB : List Char → List Char → Bool
  | l, pat =>
    if prefixOfB pat l then true
    else match l with
      | [] => false
      | _ :: rest => sublistOfB rest pat

/-- Python pat in s (substring containment). -/
def pyContains (s pat : String) : Bool := sublistOfB s.data pat.data

/-- Split a character list on a separator character, keeping empty pieces,
    like Python s.split(sep) for a single-character sep. -/
def splitCh (sep : Char) : List Char → List (List Char)
  | [] => [[]]
  | c :: rest =>
    match splitCh sep rest with
    | [] => [[c]]
    | h :: t => if c == sep then [] :: h :: t else (c :: h) :: t

/-- Python s.split(newline-character): the list of lines, empties kept. -/
def pyLines (s : String) : List String := (splitCh (Char.ofNat 10) s.data).map String.mk

/-- Python s.split() with no argument: split on whitespace runs, drop empties. -/
def splitWsAux : List Char → List Char → List String
  | [], acc => if acc.isEmpty then [] else [String.mk acc.reverse]
  | c :: rest, acc =>
    if c.isWhitespace then
      if acc.isEmpty then splitWsAux rest []
      else String.mk acc.reverse :: splitWsAux rest []
    else splitWsAux rest (c :: acc)

/-- Python s.split() with no argument. -/
def pySplitWs (s : String) : List String := splitWsAux s.data []

/-- Python s.lower() (ASCII as used by the sources). -/
def pyLower (s : String) : String := String.mk (s.data.map Char.toLower)

/-- Python s[n:] on character index n. -/
def pyDropChars (s : String) (n : Nat) : String := String.mk (s.data.drop n)

/-- Python s.splitlines() for newline-only content: split on the newline
    character and drop the final empty piece that a trailing newline creates;
    the empty string yields the empty list. -/
def pySplitlines (s : String) : List String :=
  if s.data.isEmpty then []
  else
    let parts := splitCh (Char.ofNat 10) s.data
    let parts := if s.data.getLast? = some (Char.ofNat 10) then parts.dropLast else parts
    parts.map String.mk

/-- Python newline.join(lines). -/
def pyJoinNl (lines : List String) : String :=
  String.mk (List.intercalate [Char.ofNat 10] (lines.map String.data))

/-- Python s.isdigit() restricted to the ASCII decimal digits the diff
    headers can contain: nonempty and all digits. -/
def pyIsDigit (s : String) : Bool := !s.data.isEmpty && s.data.all Char.isDigit

/-- Python int(s) for a digit string. -/
def pyToNat (s : String) : Nat := s.data.foldl (fun a c => a * 10 + (c.toNat - 48)) 0

/-! ### Association lists standing for the Python dicts -/

/-- Dict lookup. -/
def lookupA {β : Type} : List (String × β) → String → Option β
  | [], _ => none
  | (k, v) :: rest, key => if k = key then some v else lookupA rest key

/-- Dict store d[k] = v: replace the existing binding or append a new one. -/
def insertA {β : Type} : List (String × β) → String → β → List (String × β)
  | [], key, v => [(key, v)]
  | (k, w) :: rest, key, v =>
    if k = key then (key, v) :: rest else (k, w) :: insertA rest key v

/-- Python del d[k]. -/
def eraseA {β : Type} (l : List (String × β)) (key : String) : List (String × β) :=
  l.filter (fun p => !(p.1 = key : Bool))

/-- defaultdict(int) read: missing keys count as 0. -/
def lookupD (l : List (String × Nat)) (key : String) : Nat := (lookupA l key).getD 0

/-! ### Diff engine (src/orchestrator/sandbox.py) -/

/-- CRITICAL_FILES, sandbox.py lines 34-38.  Note: the source set has nine
    members; it does not contain pnpm-lock.yaml. -/
def criticalFiles : List String :=
  ["package.json", "package-lock.json", "yarn.lock",
   "requirements.txt", "setup.py", "pyproject.toml",
   ".gitignore", "README.md", "Dockerfile"]

/-- One entry of the list built by SecureSandbox._parse_diff: a dict with
    keys file, hunks and current_hunk. -/
structure FileDiff where
  file : String
  hunks : List (List String)
  current_hunk : List String
deriving DecidableEq

/-- The workspace repo/ tree: path to file content. -/
def Repo := List (String × String)
deriving DecidableEq

/-- Python truthiness of the current_file variable in _parse_diff:
    None and the empty string are falsy. -/
def optTruthy : Option String → Bool
  | none => false
  | some s => !s.data.isEmpty

/-- Rewrite the last entry of the files list, as the Python code does through
    files[-1]. -/
def modifyLast (f : FileDiff → FileDiff) : List FileDiff → List FileDiff
  | [] => []
  | [x] => [f x]
  | x :: y :: rest => x :: modifyLast f (y :: rest)

/-- One iteration of the line loop of _parse_diff (sandbox.py 522-539).
    The state is (current_file, files). -/
def parseStep (st : Option String × List FileDiff) (line : String) :
    Option String × List FileDiff :=
  if pyStartsWith line "--- a/" then
    let name := pyDropChars line 6
    (some name, st.2 ++ [{ file := name, hunks := [], current_hunk := [] }])
  else if pyStartsWith line "+++ b/" then st
  else if pyStartsWith line "@@" then
    if optTruthy st.1 && !st.2.isEmpty then
      (st.1, modifyLast (fun fd =>
        if !fd.current_hunk.isEmpty then
          { fd with hunks := fd.hunks ++ [fd.current_hunk], current_hunk := [] }
        else { fd with current_hunk := [] }) st.2)
    else st
  else if pyStartsWith line "+" || pyStartsWith line "-" || pyStartsWith line " " then
    if optTruthy st.1 && !st.2.isEmpty then
      (st.1, modifyLast (fun fd =>
        { fd with current_hunk := fd.current_hunk ++ [line] }) st.2)
    else st
  else st

/-- SecureSandbox._parse_diff (sandbox.py 516-547): fold the line loop over
    the newline-split diff text, then flush the last pending hunk. -/
def parseDiff (diff_text : String) : List FileDiff :=
  let st := (pyLines diff_text).foldl parseStep (none, [])
  if optTruthy st.1 && !st.2.isEmpty then
    modifyLast (fun fd =>
      if !fd.current_hunk.isEmpty then
        { fd with hunks := fd.hunks ++ [fd.current_hunk] }
      else fd) st.2
  else st.2

/-- Some line of some hunk of the block starts with a plus sign
    (sandbox.py 561-562). -/
def fdHasAdditions (fd : FileDiff) : Bool :=
  fd.hunks.any (fun h => h.any (fun l => pyStartsWith l "+"))

/-- Some line of some hunk of the block starts with a minus sign
    (sandbox.py 566-567). -/
def fdHasDeletions (fd : FileDiff) : Bool :=
  fd.hunks.any (fun h => h.any (fun l => pyStartsWith l "-"))

/-- Some plus line of some hunk of the block mentions /dev/null
    (sandbox.py 561-565). -/
def fdHasDevNull (fd : FileDiff) : Bool :=
  fd.hunks.any (fun h => h.any (fun l =>
    pyStartsWith l "+" && pyContains l "/dev/null"))

/-- SecureSandbox._would_delete_critical_files (sandbox.py 549-573). -/
def wouldDeleteCriticalFiles (parsed : List FileDiff) : Bool :=
  parsed.any (fun fd =>
    criticalFiles.contains fd.file &&
    ((fdHasDeletions fd && !fdHasAdditions fd) || fdHasDevNull fd))

/-- The line_numbers extraction of _apply_hunks (sandbox.py 606-615): find the
    first line of the hunk that starts with two at signs, whitespace-split it,
    comma-split the second piece, and keep the decimal items. -/
def extractLineNumbers (hunk : List String) : List Nat :=
  match hunk.find? (fun l => pyStartsWith l "@@") with
  | none => []
  | some line =>
    let parts := pySplitWs line
    if 2 ≤ parts.length then
      let numbers := ((parts.get? 1).getD "").data |> splitCh ',' |>.map String.mk
      if 2 ≤ numbers.length then (numbers.filter pyIsDigit).map pyToNat
      else []
    else []

/-- SecureSandbox._apply_hunks (sandbox.py 600-639).  A hunk without a line
    starting with two at signs is skipped entirely; otherwise the span
    result[start : start + len(content)] is replaced by the context and plus
    lines of the hunk.  The hunks produced by parseDiff never contain such a
    line, so in practice every hunk is skipped. -/
def applyHunks (content : List String) (hunks : List (List String)) : List String :=
  hunks.foldl (fun result hunk =>
    match extractLineNumbers hunk with
    | [] => result
    | start :: _ =>
      let newLines := hunk.foldr (fun line acc =>
        if pyStartsWith line " " then pyDropChars line 1 :: acc
        else if pyStartsWith line "+" then pyDropChars line 1 :: acc
        else acc) []
      if start < result.length then
        result.take start ++ newLines ++ result.drop (start + content.length)
      else result ++ newLines) content

/-- SecureSandbox._apply_diff (sandbox.py 575-598): for each block, read the
    current content (empty when the file is absent), apply the hunks, write
    the newline-join back, and record the filename. -/
def applyDiff (repo : Repo) (parsed : List FileDiff) : List String × Repo :=
  parsed.foldl (fun acc fd =>
    let content := match lookupA acc.2 fd.file with
      | some c => pySplitlines c
      | none => []
    let newContent := applyHunks content fd.hunks
    (acc.1 ++ [fd.file], insertA acc.2 fd.file (pyJoinNl newContent))) ([], repo)

/-- Diff statistics, SecureSandbox._analyze_diff (sandbox.py 641-660). -/
structure DiffStats where
  files_modified : Nat
  additions : Nat
  deletions : Nat
  net_change : Int
deriving DecidableEq

/-- SecureSandbox._analyze_diff (sandbox.py 641-660). -/
def analyzeDiff (parsed : List FileDiff) : DiffStats :=
  let adds := (parsed.map (fun fd =>
    (fd.hunks.map (fun h => (h.filter (fun l => pyStartsWith l "+")).length)).sum)).sum
  let dels := (parsed.map (fun fd =>
    (fd.hunks.map (fun h => (h.filter (fun l => pyStartsWith l "-")).length)).sum)).sum
  { files_modified := parsed.length, additions := adds, deletions := dels,
    net_change := (adds : Int) - (dels : Int) }

/-- PatchResult (sandbox.py 52-59). -/
structure PatchResult where
  success : Bool
  applied_files : List String
  rollback_required : Bool
  error_message : Option String
  diff_stats : Option DiffStats
deriving DecidableEq

/-- SecureSandbox.apply_patch (sandbox.py 457-514), as state passing on the
    workspace.  The before_patch snapshot is the incoming repo value; the
    failure returns happen before _apply_diff writes anything, so they leave
    the workspace unchanged.  The Python except branch (rollback after an
    OS-level exception) is outside this pure model, and the failed-to-apply
    branch is unreachable because _apply_diff records every parsed block. -/
def applyPatch (repo : Repo) (diff_text : String) : PatchResult × Repo :=
  let parsed := parseDiff diff_text
  if parsed.isEmpty then
    ({ success := false, applied_files := [], rollback_required := false,
       error_message := some "Invalid diff format", diff_stats := none }, repo)
  else if wouldDeleteCriticalFiles parsed then
    ({ success := false, applied_files := [], rollback_required := false,
       error_message := some "Patch would delete critical files", diff_stats := none }, repo)
  else
    let applied := applyDiff repo parsed
    if applied.1.isEmpty then
      ({ success := false, applied_files := [], rollback_required := true,
         error_message := some "Failed to apply patch", diff_stats := none }, applied.2)
    else
      ({ success := true, applied_files := applied.1, rollback_required := false,
         error_message := none, diff_stats := some (analyzeDiff parsed) }, applied.2)

/-! ### Coder-side diff validation (src/orchestrator/engine.py) -/

/-- The diff has a line starting with the minus file header marker. -/
def hasMinusHeader (content : String) : Bool :=
  (pyLines content).any (fun l => pyStartsWith l "--- a/")

/-- The diff has a line starting with the plus file header marker. -/
def hasPlusHeader (content : String) : Bool :=
  (pyLines content).any (fun l => pyStartsWith l "+++ b/")

/-- The diff has a line starting with two at signs. -/
def hasHunkHeader (content : String) : Bool :=
  (pyLines content).any (fun l => pyStartsWith l "@@")

/-- The diff has a line containing the COMMIT trailer marker. -/
def hasCommitLine (content : String) : Bool :=
  (pyLines content).any (fun l => pyContains l "COMMIT:")

/-- RealLLM._validate_diff_format (engine.py 535-557): the successive early
    returns of the source. -/
def validateDiffFormat (content : String) : Bool :=
  if !hasMinusHeader content then false
  else if !hasPlusHeader content then false
  else if !hasHunkHeader content then false
  else if !hasCommitLine content then false
  else if 50 < (pyLines content).length then false
  else true

/-- The acceptance predicate in the words of the specification: the five
    structural conditions hold and the diff has at most fifty lines.  Written
    from the spec for comparison with validateDiffFormat. -/
def specDiffAccepted (content : String) : Bool :=
  hasMinusHeader content && hasPlusHeader content && hasHunkHeader content &&
  hasCommitLine content && (pyLines content).length ≤ 50

/-! ### Memory layer (engine.py 117-189) -/

/-- The word set of an instruction: set(instruction.lower().split()),
    engine.py 161-162, as a duplicate-free list. -/
def wordList (s : String) : List String := (pySplitWs (pyLower s)).dedup

/-- Size of the intersection of the two word sets. -/
def interCard (a b : String) : Nat :=
  ((wordList a).filter (fun w => (wordList b).contains w)).length

/-- Size of the union of the two word sets. -/
def unionCard (a b : String) : Nat := ((wordList a) ++ (wordList b)).dedup.length

/-- The float produced by the one division in the sources, kept as the exact
    nonnegative fraction numerator/denominator.  The sizes involved keep the
    exact comparison with the 0.3 literal equal to the float comparison. -/
structure PyRat where
  num : Nat
  den : Nat
deriving DecidableEq

/-- Exact order on the fractions: a < b. -/
def pyRatLt (a b : PyRat) : Bool := decide (a.num * b.den < b.num * a.den)

/-- The similarity quotient of engine.py line 163.  Python divides two set
    sizes; when the union is empty the division raises ZeroDivisionError,
    modelled by none. -/
def similarity (a b : String) : Option PyRat :=
  if unionCard a b = 0 then none
  else some { num := interCard a b, den := unionCard a b }

/-- An entry of successful_plans (engine.py 127-138); the plan payload is
    kept as an opaque string. -/
structure PlanMemory where
  template : String
  instruction : String
  plan : String
deriving DecidableEq

/-- An entry of successful_diffs (engine.py 140-151). -/
structure DiffMemory where
  template : String
  plan : String
  diff : String
deriving DecidableEq

/-- An element of the examples list built by get_similar_examples. -/
inductive Example where
  | plan (instruction : String) (plan : String) (sim : PyRat)
  | diff (plan : String) (diff : String)
deriving DecidableEq

/-- True exactly on the plan-hint entries. -/
def Example.isPlan : Example → Bool
  | .plan _ _ _ => true
  | .diff _ _ => false

/-- The conditional append of engine.py 165-171: the entry joins the
    examples list exactly when its similarity strictly exceeds 0.3. -/
def planAppend (acc : List Example) (m : PlanMemory) (s : PyRat) : List Example :=
  if pyRatLt { num := 3, den := 10 } s then
    acc ++ [Example.plan m.instruction m.plan s]
  else acc

/-- The first loop of get_similar_examples (engine.py 158-174), on the
    already-reversed plans list.  For each entry of matching template the
    similarity is computed (none propagates the ZeroDivisionError); entries
    whose similarity strictly exceeds 0.3 are appended; after each matching
    entry the loop breaks once the examples list has reached max_examples. -/
def planScan (template instruction : String) (maxE : Nat) :
    List PlanMemory → List Example → Option (List Example)
  | [], acc => some acc
  | m :: rest, acc =>
    if m.template = template then
      match similarity instruction m.instruction with
      | none => none
      | some s =>
        if maxE ≤ (planAppend acc m s).length then some (planAppend acc m s)
        else planScan template instruction maxE rest (planAppend acc m s)
    else planScan template instruction maxE rest acc

/-- The second loop of get_similar_examples (engine.py 176-186), on the
    already-reversed diffs list: every matching entry is appended first, and
    only then is the size bound checked. -/
def diffScan (template : String) (maxE : Nat) :
    List DiffMemory → List Example → List Example
  | [], acc => acc
  | m :: rest, acc =>
    if m.template = template then
      if maxE ≤ (acc ++ [Example.diff m.plan m.diff]).length then
        acc ++ [Example.diff m.plan m.diff]
      else diffScan template maxE rest (acc ++ [Example.diff m.plan m.diff])
    else diffScan template maxE rest acc

/-- MemoryLayer.get_similar_examples (engine.py 153-189).  plans and diffs
    are the stored deques in insertion order; the loops walk them reversed.
    none models the ZeroDivisionError escaping the call. -/
def getSimilarExamples (plans : List PlanMemory) (diffs : List DiffMemory)
    (template instruction : String) (maxE : Nat) : Option (List Example) :=
  match planScan template instruction maxE plans.reverse [] with
  | none => none
  | some acc => some (diffScan template maxE diffs.reverse acc)

/-- The memory query made by RealLLM.call_coder (engine.py line 401): the
    instruction argument is the empty string and max_examples is 1. -/
def callCoderMemoryQuery (plans : List PlanMemory) (diffs : List DiffMemory)
    (template : String) : Option (List Example) :=
  getSimilarExamples plans diffs template "" 1

/-! ### Orchestrator state machine (engine.py 62-845) -/

/-- TaskState (engine.py 62-70). -/
inductive TaskState where
  | starting | planning | coding | diff_applied | testing | test_report | done | failed
deriving DecidableEq

/-- TaskEvent (engine.py 72-79); the wall-clock timestamp and the open data
    payload are outside the model. -/
structure TaskEvent where
  task_id : String
  run_id : String
  iteration : Nat
  stage : String
  message : String
deriving DecidableEq

/-- TaskRun (engine.py 81-90); start_time and current_agent are outside the
    model. -/
structure TaskRun where
  task_id : String
  run_id : String
  template : String
  instruction : String
  state : TaskState
  iteration : Nat
  error : Option String
deriving DecidableEq

/-- TaskRequest (protocol.py 33-37). -/
structure TaskRequest where
  task_id : String
  template : String
  instruction : String
deriving DecidableEq

/-- The per-task entry of MetricsTracker.task_metrics (engine.py 209-224),
    reduced to the identifying fields. -/
structure MetricsEntry where
  template : String
  instruction : String
deriving DecidableEq

/-- The orchestrator's shared state (engine.py 636-652): the active-tasks
    dict, the per-task event lists, the failure-quarantine counters and the
    metrics tracker entries, plus the set of sandbox directory trees existing
    under the sandbox root (one per SecureSandbox that has been constructed
    and not cleaned up). -/
structure Orch where
  active_tasks : List (String × TaskRun)
  task_events : List (String × List TaskEvent)
  quarantine : List (String × Nat)
  task_metrics : List (String × MetricsEntry)
  sandbox_dirs : List String
deriving DecidableEq

/-- Orchestrator._is_quarantined (engine.py 687-691).  sig stands for the
    signature string template + colon + first eight hex digits of
    md5(instruction): it is a value computed deterministically from the
    request, passed here explicitly because the model keeps the hash opaque. -/
def isQuarantined (q : List (String × Nat)) (sig : String) : Bool :=
  decide (2 ≤ lookupD q sig)

/-- The quarantine bump of the failure path (engine.py 772-774). -/
def bumpQuarantine (q : List (String × Nat)) (sig : String) : List (String × Nat) :=
  insertA q sig (lookupD q sig + 1)

/-- Orchestrator.start_task (engine.py 654-685): reject with HTTP 400 when
    the request signature is quarantined; otherwise start metrics tracking,
    create the TaskRun with iteration 0 in state starting, store it in
    active_tasks under the task_id (replacing any entry already there), and
    return it.  run_id is the md5-derived fresh identifier, passed
    explicitly.  No check of prior membership in active_tasks is made. -/
def startTask (o : Orch) (req : TaskRequest) (sig run_id : String) :
    Except Nat (Orch × TaskRun) :=
  if isQuarantined o.quarantine sig then Except.error 400
  else
    let tr : TaskRun :=
      { task_id := req.task_id, run_id := run_id, template := req.template,
        instruction := req.instruction, state := TaskState.starting,
        iteration := 0, error := none }
    Except.ok
      ({ o with
          task_metrics := insertA o.task_metrics req.task_id
            { template := req.template, instruction := req.instruction },
          active_tasks := insertA o.active_tasks req.task_id tr }, tr)

/-- The TaskRun that start_task creates (engine.py 667-677). -/
def startedRun (req : TaskRequest) (rid : String) : TaskRun :=
  { task_id := req.task_id, run_id := rid, template := req.template,
    instruction := req.instruction, state := TaskState.starting,
    iteration := 0, error := none }

/-- The orchestrator state start_task leaves behind on successful admission
    (engine.py 663-679): metrics started and the new record stored under its
    task_id. -/
def startedOrch (o : Orch) (req : TaskRequest) (rid : String) : Orch :=
  { o with
      task_metrics := insertA o.task_metrics req.task_id
        { template := req.template, instruction := req.instruction },
      active_tasks := insertA o.active_tasks req.task_id (startedRun req rid) }

/-- Orchestrator._emit_event (engine.py 787-812) on one run record: append an
    event stamped with the record's run_id and current iteration, then
    increment the iteration counter. -/
def emitEvent (tr : TaskRun) (events : List TaskEvent) (stage message : String) :
    TaskRun × List TaskEvent :=
  let e : TaskEvent :=
    { task_id := tr.task_id, run_id := tr.run_id, iteration := tr.iteration,
      stage := stage, message := message }
  ({ tr with iteration := tr.iteration + 1 }, events ++ [e])

/-- A sequence of _emit_event calls given as (stage, message) pairs. -/
def emitMany (tr : TaskRun) (events : List TaskEvent)
    (stages : List (String × String)) : TaskRun × List TaskEvent :=
  stages.foldl (fun acc sm => emitEvent acc.1 acc.2 sm.1 sm.2) (tr, events)

/-- The (stage, message) pairs emitted by the try body of
    Orchestrator._execute_task (engine.py 697-759) in source order. -/
def successStageTrace : List (String × String) :=
  [("starting", "Task execution started"),
   ("starting", "Secure sandbox initialized"),
   ("planning", "Planner agent is analyzing task"),
   ("planning", "Planning completed"),
   ("coding", "Coder agent is implementing changes"),
   ("coding", "Code changes generated"),
   ("diff_applied", "Applying code changes securely"),
   ("diff_applied", "Code changes applied successfully"),
   ("testing", "Tester agent is running tests"),
   ("testing", "Tests completed"),
   ("test_report", "Generating test report"),
   ("test_report", "Test report generated"),
   ("done", "Task completed successfully")]

/-- The outcome of one pass of the _execute_task try body. -/
structure RunOutcome where
  run : TaskRun
  events : List TaskEvent
  repo : Repo
  patch : PatchResult
deriving DecidableEq

/-- The try body of Orchestrator._execute_task (engine.py 697-759) for one
    run record, with the agent-produced diff passed as a parameter (the
    planner, coder and tester calls recover internally and never raise).  The
    stage events are emitted in source order; apply_patch runs between the
    two diff_applied events and its PatchResult is never inspected: whatever
    it reports, execution continues through the testing and test_report
    stages and the run record ends in state done. -/
def executeTask (tr : TaskRun) (events : List TaskEvent) (repo : Repo)
    (diff : String) : RunOutcome :=
  let s1 := emitEvent tr events "starting" "Task execution started"
  let s2 := emitEvent s1.1 s1.2 "starting" "Secure sandbox initialized"
  let s3 := emitEvent s2.1 s2.2 "planning" "Planner agent is analyzing task"
  let s4 := emitEvent s3.1 s3.2 "planning" "Planning completed"
  let s5 := emitEvent s4.1 s4.2 "coding" "Coder agent is implementing changes"
  let s6 := emitEvent s5.1 s5.2 "coding" "Code changes generated"
  let s7 := emitEvent s6.1 s6.2 "diff_applied" "Applying code changes securely"
  let p := applyPatch repo diff
  let s8 := emitEvent s7.1 s7.2 "diff_applied" "Code changes applied successfully"
  let s9 := emitEvent s8.1 s8.2 "testing" "Tester agent is running tests"
  let s10 := emitEvent s9.1 s9.2 "testing" "Tests completed"
  let s11 := emitEvent s10.1 s10.2 "test_report" "Generating test report"
  let s12 := emitEvent s11.1 s11.2 "test_report" "Test report generated"
  let s13 := emitEvent s12.1 s12.2 "done" "Task completed successfully"
  { run := { s13.1 with state := TaskState.done }, events := s13.2,
    repo := p.2, patch := p.1 }

/-- SecureSandbox.cleanup (sandbox.py 795-801): removes the whole sandbox
    root tree (it deletes base_path, under which every task directory
    lives). -/
def sandboxCleanup (_dirs : List String) : List String := []

/-- Orchestrator._execute_task (engine.py 693-785) at the orchestrator-state
    level: look up the run record (the engine indexes active_tasks and the
    coroutine only starts after start_task stored the record), construct the
    SecureSandbox (whose _setup_paths creates the task directory tree), run
    the try body, write back the mutated record and event list, and then run
    the finally block of lines 782-785, which deletes the task from
    active_tasks and does nothing else. -/
def executeTaskOrch (o : Orch) (task_id : String) (repo : Repo) (diff : String) :
    Orch × Repo × PatchResult :=
  match lookupA o.active_tasks task_id with
  | none => (o, repo,
      { success := false, applied_files := [], rollback_required := false,
        error_message := none, diff_stats := none })
  | some tr =>
    let r := executeTask tr ((lookupA o.task_events task_id).getD []) repo diff
    let o1 : Orch :=
      { o with
          active_tasks := insertA o.active_tasks task_id r.run,
          task_events := insertA o.task_events task_id r.events,
          sandbox_dirs := o.sandbox_dirs ++ [task_id] }
    let o2 : Orch := { o1 with active_tasks := eraseA o1.active_tasks task_id }
    (o2, r.repo, r.patch)

/-- Orchestrator.get_task (engine.py 815-828): none when the task_id is not
    in active_tasks; otherwise the record with its events and metrics. -/
def getTask (o : Orch) (task_id : String) :
    Option (TaskRun × List TaskEvent × Option MetricsEntry) :=
  match lookupA o.active_tasks task_id with
  | none => none
  | some tr =>
    some (tr, (lookupA o.task_events task_id).getD [], lookupA o.task_metrics task_id)

/-- The GET task endpoint (engine.py 988-1000): 404 when get_task returns
    nothing. -/
def apiGetTask (o : Orch) (task_id : String) :
    Except Nat (TaskRun × List TaskEvent × Option MetricsEntry) :=
  match getTask o task_id with
  | none => Except.error 404
  | some d => Except.ok d

/-! ### Concrete fixtures used by the counterexamples and witnesses -/

/-- A diff block whose only target is pnpm-lock.yaml and whose body consists
    of deletions alone. -/
def pnpmDeleteDiff : String :=
  "--- a/pnpm-lock.yaml\n+++ b/pnpm-lock.yaml\n@@ -1,2 +0,0 @@\n-a\n-b\nCOMMIT: remove lockfile"

/-- A workspace holding just the pnpm lockfile. -/
def pnpmRepo : Repo := [("pnpm-lock.yaml", "a\nb\n")]

/-- The parsed block of pnpmDeleteDiff. -/
def pnpmBlockFixture : FileDiff :=
  { file := "pnpm-lock.yaml", hunks := [["-a", "-b"]], current_hunk := ["-a", "-b"] }

/-- A diff block whose only target is package.json and whose body consists of
    deletions alone. -/
def pkgDeleteDiff : String :=
  "--- a/package.json\n+++ b/package.json\n@@ -1,2 +0,0 @@\n-x\n-y\nCOMMIT: remove manifest"

/-- A diff text with no file header at all: _parse_diff yields no blocks and
    apply_patch reports Invalid diff format. -/
def unparsableDiff : String := "garbage\nCOMMIT: x"

/-- A well-formed 51-line diff: three header lines, forty-seven added lines
    and the COMMIT trailer. -/
def diff51 : String :=
  pyJoinNl (["--- a/src/x.txt", "+++ b/src/x.txt", "@@ -1,1 +1,1 @@"] ++
    List.replicate 47 "+pad" ++ ["COMMIT: big change"])

/-- A fresh run record as start_task creates it. -/
def runFixture : TaskRun :=
  { task_id := "t1", run_id := "run-a", template := "flask",
    instruction := "add sum feature", state := TaskState.starting,
    iteration := 0, error := none }

/-- An orchestrator state in which t1 is active. -/
def orchFixture : Orch :=
  { active_tasks := [("t1", runFixture)],
    task_events := [],
    quarantine := [],
    task_metrics := [("t1", { template := "flask", instruction := "add sum feature" })],
    sandbox_dirs := [] }

/-- A duplicate submission for the already-active t1. -/
def reqFixture : TaskRequest :=
  { task_id := "t1", template := "flask", instruction := "add sum feature" }

/-- The run record the duplicate submission creates. -/
def dupRunFixture : TaskRun :=
  { task_id := "t1", run_id := "run-b", template := "flask",
    instruction := "add sum feature", state := TaskState.starting,
    iteration := 0, error := none }

/-- Two stored plans and one stored diff, all for the flask template, each
    plan instruction identical to the query used in the overflow
    counterexample. -/
def plansFixture : List PlanMemory :=
  [{ template := "flask", instruction := "add sum endpoint", plan := "p1" },
   { template := "flask", instruction := "add sum endpoint", plan := "p2" }]

/-- One stored diff for the flask template. -/
def diffsFixture : List DiffMemory :=
  [{ template := "flask", plan := "p", diff := "d" }]

/-- A stored plan whose instruction has an empty word set. -/
def emptyPlanFixture : List PlanMemory :=
  [{ template := "react", instruction := "", plan := "p" }]

/-- A stored plan whose instruction shares no word with the query used in
    the witness. -/
def unrelatedPlanFixture : List PlanMemory :=
  [{ template := "flask", instruction := "unrelated words here", plan := "p" }]

/-! ### Helper lemmas -/

theorem lookupA_insertA_self {β : Type} (l : List (String × β)) (k : String) (v : β) :
    lookupA (insertA l k v) k = some v := by
  induction l with
  | nil => simp [insertA, lookupA]
  | cons p rest ih =>
    by_cases h : p.1 = k
    · simp [insertA, h, lookupA]
    · simp [insertA, h, lookupA, ih]

theorem lookupA_eraseA_self {β : Type} (l : List (String × β)) (k : String) :
    lookupA (eraseA l k) k = none := by
  induction l with
  | nil => simp [eraseA, lookupA]
  | cons p rest ih =>
    by_cases h : p.1 = k
    · simpa [eraseA, h] using ih
    · simpa [eraseA, h, lookupA] using ih

theorem insertA_keys {β : Type} (l : List (String × β)) (k : String) (v : β) :
    (insertA l k v).map Prod.fst =
      if k ∈ l.map Prod.fst then l.map Prod.fst else l.map Prod.fst ++ [k] := by
  induction l with
  | nil => simp [insertA]
  | cons p rest ih =>
    by_cases hp : p.1 = k
    · simp [insertA, hp]
    · by_cases hm : k ∈ rest.map Prod.fst
      · simp [insertA, hp, ih, hm, Ne.symm hp]
      · simp [insertA, hp, ih, hm, Ne.symm hp]

theorem insertA_keys_nodup {β : Type} (l : List (String × β)) (k : String) (v : β)
    (h : (l.map Prod.fst).Nodup) : ((insertA l k v).map Prod.fst).Nodup := by
  rw [insertA_keys]
  by_cases hm : k ∈ l.map Prod.fst
  · simpa [hm] using h
  · simp only [hm, if_false]
    refine List.Nodup.append h (List.nodup_singleton k) ?_
    intro a ha hb
    simp at hb
    exact hm (hb ▸ ha)

theorem isEmpty_false_of_length {α : Type} (l : List α) (h : l.length ≠ 0) :
    l.isEmpty = false := by
  cases l with
  | nil => simp at h
  | cons a rest => simp

theorem applyDiff_fst_length (parsed : List FileDiff) (repo : Repo) :
    (applyDiff repo parsed).1.length = parsed.length := by
  suffices h : ∀ (acc : List String × Repo),
      (parsed.foldl (fun acc fd =>
        let content := match lookupA acc.2 fd.file with
          | some c => pySplitlines c
          | none => []
        let newContent := applyHunks content fd.hunks
        (acc.1 ++ [fd.file], insertA acc.2 fd.file (pyJoinNl newContent))) acc).1.length =
      acc.1.length + parsed.length by
    simpa [applyDiff] using h ([], repo)
  induction parsed with
  | nil => intro acc; simp
  | cons fd rest ih =>
    intro acc
    simp [List.foldl_cons, ih]
    omega

theorem applyPatch_fail_repo (repo : Repo) (d : String)
    (h : (applyPatch repo d).1.success = false) : (applyPatch repo d).2 = repo := by
  by_cases h1 : (parseDiff d).isEmpty
  · simp [applyPatch, h1]
  · by_cases h2 : wouldDeleteCriticalFiles (parseDiff d)
    · simp [applyPatch, h1, h2]
    · exfalso
      have hlen : (applyDiff repo (parseDiff d)).1.length = (parseDiff d).length :=
        applyDiff_fst_length (parseDiff d) repo
      have hne : (parseDiff d).length ≠ 0 := by
        intro hz
        rw [List.length_eq_zero.mp hz] at h1
        simp at h1
      have h3 : (applyDiff repo (parseDiff d)).1.isEmpty = false :=
        isEmpty_false_of_length _ (by omega)
      simp [applyPatch, h1, h2, h3] at h

theorem wouldDelete_of_block (parsed : List FileDiff) (fd : FileDiff)
    (hmem : fd ∈ parsed) (hcrit : fd.file ∈ criticalFiles)
    (hblock : ((fdHasDeletions fd && !fdHasAdditions fd) || fdHasDevNull fd) = true) :
    wouldDeleteCriticalFiles parsed = true := by
  have hc : criticalFiles.contains fd.file = true := List.elem_eq_true_of_mem hcrit
  unfold wouldDeleteCriticalFiles
  rw [List.any_eq_true]
  exact ⟨fd, hmem, (Bool.and_eq_true _ _).mpr ⟨hc, hblock⟩⟩

/-! ### C1 -/

/-- C1 counterexample.  The claim says a failing apply_patch makes the run
    roll back and transition to failed instead of proceeding to testing.  On
    the concrete unparsable diff, apply_patch does fail, yet the execution of
    the task emits a testing event and finishes with the run record in state
    done, not failed. -/
theorem applyPatch_failure_ignored_cex :
    (applyPatch [] unparsableDiff).1.success = false ∧
    (executeTask runFixture [] [] unparsableDiff).run.state = TaskState.done ∧
    ((executeTask runFixture [] [] unparsableDiff).events.map TaskEvent.stage).contains
      "testing" = true := by decide

/-- C1 amended.  When apply_patch fails it does return a PatchResult with
    success false and it leaves the workspace equal to the before_patch
    snapshot (its failure returns happen before any write); but the engine
    never inspects that result, so the run proceeds through the testing and
    test_report stages and ends in state done rather than failed. -/
theorem applyPatch_failure_not_fatal (repo : Repo) (d : String) (tr : TaskRun)
    (ev : List TaskEvent) (h : (applyPatch repo d).1.success = false) :
    (applyPatch repo d).2 = repo ∧
    (executeTask tr ev repo d).run.state = TaskState.done ∧
    (executeTask tr ev repo d).events.map TaskEvent.stage =
      ev.map TaskEvent.stage ++ successStageTrace.map Prod.fst := by
  refine ⟨applyPatch_fail_repo repo d h, rfl, ?_⟩
  simp [executeTask, emitEvent, successStageTrace]

/-- C1 witness: the amended statement at the unparsable diff. -/
theorem applyPatch_failure_not_fatal_witness :
    (applyPatch [] unparsableDiff).2 = [] ∧
    (executeTask runFixture [] [] unparsableDiff).run.state = TaskState.done ∧
    (executeTask runFixture [] [] unparsableDiff).events.map TaskEvent.stage =
      ([] : List TaskEvent).map TaskEvent.stage ++ successStageTrace.map Prod.fst :=
  applyPatch_failure_not_fatal [] unparsableDiff runFixture [] (by decide)

/-! ### C2 -/

/-- C2 counterexample.  The claim protects a ten-element set including
    pnpm-lock.yaml.  The source set has nine elements: on the concrete diff
    whose block for pnpm-lock.yaml contains only deletions, apply_patch does
    not reject; it succeeds and rewrites the file. -/
theorem criticalFiles_pnpm_unprotected_cex :
    parseDiff pnpmDeleteDiff = [pnpmBlockFixture] ∧
    fdHasDeletions pnpmBlockFixture = true ∧
    fdHasAdditions pnpmBlockFixture = false ∧
    (applyPatch pnpmRepo pnpmDeleteDiff).1.success = true ∧
    (applyPatch pnpmRepo pnpmDeleteDiff).2 ≠ pnpmRepo := by decide

/-- C2 amended.  The protected set is the nine-element source set (without
    pnpm-lock.yaml).  For a patch with a block for one of those files that
    has only deletions, or a /dev/null redirect on an added line, apply_patch
    rejects before any file is written: the result is a failure and the
    workspace is unchanged. -/
theorem criticalFiles_deletion_rejected (repo : Repo) (d : String) (fd : FileDiff)
    (hmem : fd ∈ parseDiff d) (hcrit : fd.file ∈ criticalFiles)
    (hblock : ((fdHasDeletions fd && !fdHasAdditions fd) || fdHasDevNull fd) = true) :
    (applyPatch repo d).1.success = false ∧ (applyPatch repo d).2 = repo := by
  have hne : (parseDiff d).isEmpty = false :=
    isEmpty_false_of_length _ (by
      intro hz
      rw [List.length_eq_zero.mp hz] at hmem
      simp at hmem)
  have hw := wouldDelete_of_block (parseDiff d) fd hmem hcrit hblock
  constructor <;> simp [applyPatch, hne, hw]

/-- C2 witness: the amended statement at a deletion-only package.json diff. -/
theorem criticalFiles_deletion_rejected_witness :
    (applyPatch pnpmRepo pkgDeleteDiff).1.success = false ∧
    (applyPatch pnpmRepo pkgDeleteDiff).2 = pnpmRepo :=
  criticalFiles_deletion_rejected pnpmRepo pkgDeleteDiff
    ⟨"package.json", [["-x", "-y"]], ["-x", "-y"]⟩ (by decide) (by decide) (by decide)

theorem startTask_not_quarantined (o : Orch) (req : TaskRequest) (sig rid : String)
    (h : isQuarantined o.quarantine sig = false) :
    startTask o req sig rid = Except.ok (startedOrch o req rid, startedRun req rid) := by
  simp [startTask, startedOrch, startedRun, h]

/-! ### C3 -/

/-- C3 counterexample.  The claim says admission fails while the task_id has
    an active run and that the existing record is not replaced.  With t1
    active, the duplicate submission is admitted and the stored record is
    replaced by the new run. -/
theorem duplicate_admission_cex :
    lookupA orchFixture.active_tasks "t1" = some runFixture ∧
    startTask orchFixture reqFixture "flask:sig" "run-b" =
      Except.ok ({ orchFixture with active_tasks := [("t1", dupRunFixture)] },
        dupRunFixture) ∧
    dupRunFixture ≠ runFixture := by decide

/-- C3 amended.  Admission performs no duplicate check: whenever the request
    signature is not quarantined, start_task succeeds even if the task_id
    already has an active run, and the new TaskRun replaces the existing
    entry of the active-tasks map.  Because that map is keyed by task_id
    (insertion replaces the binding in place), it still never holds two
    records for the same task_id. -/
theorem startTask_replaces_active_run (o : Orch) (req : TaskRequest)
    (sig rid : String) (h : isQuarantined o.quarantine sig = false) :
    startTask o req sig rid = Except.ok (startedOrch o req rid, startedRun req rid) ∧
    lookupA (startedOrch o req rid).active_tasks req.task_id =
      some (startedRun req rid) ∧
    (startedRun req rid).run_id = rid ∧ (startedRun req rid).iteration = 0 ∧
    (startedRun req rid).state = TaskState.starting ∧
    ((o.active_tasks.map Prod.fst).Nodup →
      ((startedOrch o req rid).active_tasks.map Prod.fst).Nodup) :=
  ⟨startTask_not_quarantined o req sig rid h,
   lookupA_insertA_self _ _ _, rfl, rfl, rfl, fun hn => insertA_keys_nodup _ _ _ hn⟩

/-- C3 witness: the amended statement at the duplicate submission fixture. -/
theorem startTask_replaces_active_run_witness :
    startTask orchFixture reqFixture "flask:sig" "run-b" =
      Except.ok (startedOrch orchFixture reqFixture "run-b",
        startedRun reqFixture "run-b") ∧
    lookupA (startedOrch orchFixture reqFixture "run-b").active_tasks
      reqFixture.task_id = some (startedRun reqFixture "run-b") ∧
    (startedRun reqFixture "run-b").run_id = "run-b" ∧
    (startedRun reqFixture "run-b").iteration = 0 ∧
    (startedRun reqFixture "run-b").state = TaskState.starting ∧
    ((orchFixture.active_tasks.map Prod.fst).Nodup →
      ((startedOrch orchFixture reqFixture "run-b").active_tasks.map Prod.fst).Nodup) :=
  startTask_replaces_active_run orchFixture reqFixture "flask:sig" "run-b" (by decide)

/-! ### C4 -/

/-- C4 counterexample.  The claim says the finally handler of every execution
    both calls Sandbox.cleanup (removing the task's sandbox tree) and removes
    the TaskRun from the active map.  On the concrete run below the record is
    removed, but the sandbox tree of t1 still exists afterwards: cleanup was
    never called. -/
theorem finally_no_cleanup_cex :
    lookupA (executeTaskOrch orchFixture "t1" [] unparsableDiff).1.active_tasks
      "t1" = none ∧
    (executeTaskOrch orchFixture "t1" [] unparsableDiff).1.sandbox_dirs.contains
      "t1" = true := by decide

/-- C4 amended.  The finally block (engine.py 782-785) removes the TaskRun
    from the active-tasks map, but it never calls Sandbox.cleanup: after the
    execution the task's sandbox directory tree still exists, which is not
    what sandboxCleanup would leave behind. -/
theorem finally_removes_without_cleanup (o : Orch) (task_id : String)
    (repo : Repo) (d : String) (tr : TaskRun)
    (h : lookupA o.active_tasks task_id = some tr) :
    lookupA (executeTaskOrch o task_id repo d).1.active_tasks task_id = none ∧
    task_id ∈ (executeTaskOrch o task_id repo d).1.sandbox_dirs ∧
    (executeTaskOrch o task_id repo d).1.sandbox_dirs ≠
      sandboxCleanup (executeTaskOrch o task_id repo d).1.sandbox_dirs := by
  refine ⟨?_, ?_, ?_⟩
  · simp only [executeTaskOrch, h]
    exact lookupA_eraseA_self _ _
  · simp [executeTaskOrch, h]
  · simp only [executeTaskOrch, h, sandboxCleanup]
    simp

/-- C4 witness: the amended statement at the t1 fixture. -/
theorem finally_removes_without_cleanup_witness :
    lookupA (executeTaskOrch orchFixture "t1" [] unparsableDiff).1.active_tasks
      "t1" = none ∧
    "t1" ∈ (executeTaskOrch orchFixture "t1" [] unparsableDiff).1.sandbox_dirs ∧
    (executeTaskOrch orchFixture "t1" [] unparsableDiff).1.sandbox_dirs ≠
      sandboxCleanup
        (executeTaskOrch orchFixture "t1" [] unparsableDiff).1.sandbox_dirs :=
  finally_removes_without_cleanup orchFixture "t1" [] unparsableDiff runFixture
    (by decide)

/-! ### C5 -/

/-- C5.  The quarantine counter of a signature counts its recorded failures
    (the failure path increments it by exactly one); once it has reached two,
    every admission carrying that signature is rejected with the 4xx error
    (HTTP 400, detail quarantined), and while it is below two, admission is
    never rejected on quarantine grounds. -/
theorem quarantine_admission (o : Orch) (req : TaskRequest) (sig rid : String) :
    (2 ≤ lookupD o.quarantine sig → startTask o req sig rid = Except.error 400) ∧
    (lookupD o.quarantine sig < 2 →
      startTask o req sig rid =
        Except.ok (startedOrch o req rid, startedRun req rid)) ∧
    (∀ q : List (String × Nat), lookupD (bumpQuarantine q sig) sig = lookupD q sig + 1) := by
  refine ⟨fun h => ?_, fun h => ?_, fun q => ?_⟩
  · simp [startTask, isQuarantined, h]
  · have hq : isQuarantined o.quarantine sig = false := by
      simp [isQuarantined, decide_eq_false_iff_not]
      omega
    exact startTask_not_quarantined o req sig rid hq
  · simp [bumpQuarantine, lookupD, lookupA_insertA_self]

/-- C5 witness: with two recorded failures admission is rejected; with one it
    succeeds; bumping twice from nothing yields the count two. -/
theorem quarantine_admission_witness :
    startTask { orchFixture with quarantine := [("flask:sig", 2)] } reqFixture
      "flask:sig" "run-b" = Except.error 400 ∧
    startTask { orchFixture with quarantine := [("flask:sig", 1)] }
      reqFixture "flask:sig" "run-b" =
      Except.ok (startedOrch { orchFixture with quarantine := [("flask:sig", 1)] }
        reqFixture "run-b", startedRun reqFixture "run-b") ∧
    lookupD (bumpQuarantine (bumpQuarantine [] "flask:sig") "flask:sig") "flask:sig" = 2 :=
  ⟨(quarantine_admission { orchFixture with quarantine := [("flask:sig", 2)] }
      reqFixture "flask:sig" "run-b").1 (by decide),
   (quarantine_admission { orchFixture with quarantine := [("flask:sig", 1)] }
      reqFixture "flask:sig" "run-b").2.1 (by decide),
   by decide⟩

/-! ### C6 -/

theorem if_bang (b x : Bool) : (if (!b) = true then false else x) = (b && x) := by
  cases b <;> simp

theorem if_len_gt (n : Nat) : (if 50 < n then false else true) = decide (n ≤ 50) := by
  by_cases h : 50 < n
  · have hn : ¬ (n ≤ 50) := by omega
    simp [h, hn]
  · have hn : n ≤ 50 := by omega
    simp [h, hn]

set_option maxRecDepth 200000 in
/-- C6 counterexample.  The claim says a 51-line diff is rejected, including
    when presented to the sandbox's ApplyPatch.  The concrete 51-line diff
    below is accepted and applied by apply_patch. -/
theorem sandbox_accepts_51_line_diff_cex :
    (pyLines diff51).length = 51 ∧ (applyPatch [] diff51).1.success = true := by
  constructor
  · decide
  · decide

/-- C6 amended.  The two validators are separate.  The coder-side
    _validate_diff_format accepts exactly when the diff has a minus file
    header, a plus file header, a hunk header, a COMMIT trailer, and at most
    fifty lines; in particular every 51-line diff is rejected there.
    Critical-file protection is not part of that validator: the sandbox's
    apply_patch succeeds exactly when the parse yields at least one file
    block and critical-file protection does not trigger, with no line-count,
    hunk-header or COMMIT check, so a 51-line diff is not rejected by
    apply_patch. -/
theorem diff_validation_split :
    (∀ content, validateDiffFormat content = specDiffAccepted content) ∧
    (∀ content, (pyLines content).length = 51 → validateDiffFormat content = false) ∧
    (∀ (repo : Repo) (d : String),
      (applyPatch repo d).1.success = true ↔
        (parseDiff d ≠ [] ∧ wouldDeleteCriticalFiles (parseDiff d) = false)) := by
  have h1 : ∀ content, validateDiffFormat content = specDiffAccepted content := by
    intro content
    unfold validateDiffFormat specDiffAccepted
    simp only [if_bang, if_len_gt, Bool.and_assoc]
  refine ⟨h1, ?_, ?_⟩
  · intro content hlen
    rw [h1 content]
    unfold specDiffAccepted
    have hle : ¬ ((pyLines content).length ≤ 50) := by omega
    simp [hle]
  · intro repo d
    constructor
    · intro hs
      by_cases hp1 : (parseDiff d).isEmpty
      · simp [applyPatch, hp1] at hs
      · by_cases hp2 : wouldDeleteCriticalFiles (parseDiff d)
        · simp [applyPatch, hp1, hp2] at hs
        · refine ⟨?_, ?_⟩
          · intro hz
            rw [hz] at hp1
            simp at hp1
          · exact Bool.eq_false_iff.mpr hp2
    · intro hps
      have hp1 : (parseDiff d).isEmpty = false :=
        isEmpty_false_of_length _ (fun hz => hps.1 (List.length_eq_zero.mp hz))
      have h3 : (applyDiff repo (parseDiff d)).1.isEmpty = false :=
        isEmpty_false_of_length _ (by
          rw [applyDiff_fst_length]
          intro hz
          exact hps.1 (List.length_eq_zero.mp hz))
      simp [applyPatch, hp1, hps.2, h3]

set_option maxRecDepth 200000 in
/-- C6 witness: the amended statement at the 51-line diff and at a valid
    small diff. -/
theorem diff_validation_split_witness :
    validateDiffFormat diff51 = false ∧
    ((applyPatch [] diff51).1.success = true ↔
      (parseDiff diff51 ≠ [] ∧ wouldDeleteCriticalFiles (parseDiff diff51) = false)) :=
  ⟨diff_validation_split.2.1 diff51 (by decide),
   diff_validation_split.2.2 [] diff51⟩

/-! ### C7 -/

theorem emitMany_spec (stages : List (String × String)) :
    ∀ (tr : TaskRun) (ev : List TaskEvent),
      (emitMany tr ev stages).2.map TaskEvent.iteration =
        ev.map TaskEvent.iteration ++ List.range' tr.iteration stages.length ∧
      ∀ e ∈ (emitMany tr ev stages).2, e ∈ ev ∨ e.run_id = tr.run_id := by
  induction stages with
  | nil =>
    intro tr ev
    refine ⟨by simp [emitMany], fun e he => Or.inl ?_⟩
    simpa [emitMany] using he
  | cons sm rest ih =>
    intro tr ev
    have h := ih { tr with iteration := tr.iteration + 1 }
      (ev ++ [{ task_id := tr.task_id, run_id := tr.run_id,
                iteration := tr.iteration, stage := sm.1, message := sm.2 }])
    simp only [emitMany, List.foldl_cons, emitEvent] at h ⊢
    constructor
    · rw [h.1]
      have hr : List.range' tr.iteration (rest.length + 1) =
          tr.iteration :: List.range' (tr.iteration + 1) rest.length := rfl
      simp [hr]
    · intro e he
      rcases h.2 e he with h' | h'
      · rcases List.mem_append.mp h' with h'' | h''
        · exact Or.inl h''
        · simp at h''
          right
          rw [h'']
      · exact Or.inr h'

/-- C7.  Event iterations within one run are 0, 1, 2, ... consecutively: the
    run record starts with iteration 0 (as start_task creates it), every
    emitted event is stamped with the record's current iteration and the
    record's run_id, and the counter increments by one per event, so the
    iteration values of the run's emitted events are exactly the range
    0 .. n-1 in emission order, with no gaps and no repeats; the engine's
    execution path emits through this same mechanism. -/
theorem event_iterations_consecutive (tr : TaskRun)
    (stages : List (String × String)) (h : tr.iteration = 0) :
    (emitMany tr [] stages).2.map TaskEvent.iteration = List.range stages.length ∧
    (∀ e ∈ (emitMany tr [] stages).2, e.run_id = tr.run_id) ∧
    (∀ (repo : Repo) (d : String) (ev : List TaskEvent),
      (executeTask tr ev repo d).events = (emitMany tr ev successStageTrace).2) ∧
    (∀ (o : Orch) (req : TaskRequest) (sig rid : String) (o' : Orch) (tr' : TaskRun),
      startTask o req sig rid = Except.ok (o', tr') → tr'.iteration = 0) := by
  refine ⟨?_, ?_, fun repo d ev => rfl, ?_⟩
  · have h1 := (emitMany_spec stages tr []).1
    simpa [h, List.range_eq_range'] using h1
  · intro e he
    rcases (emitMany_spec stages tr []).2 e he with h' | h'
    · simp at h'
    · exact h'
  · intro o req sig rid o' tr' hst
    by_cases hq : isQuarantined o.quarantine sig
    · simp [startTask, hq] at hst
    · simp [startTask, hq] at hst
      rw [← hst.2]

/-- C7 witness: the statement at a concrete fresh run and stage list. -/
theorem event_iterations_consecutive_witness :
    (emitMany runFixture [] [("a", "x"), ("b", "y")]).2.map TaskEvent.iteration =
      List.range 2 :=
  (event_iterations_consecutive runFixture [("a", "x"), ("b", "y")] (by decide)).1

/-! ### C8 -/

theorem planAppend_length (acc : List Example) (m : PlanMemory) (s : PyRat) :
    acc.length ≤ (planAppend acc m s).length ∧
    (planAppend acc m s).length ≤ acc.length + 1 := by
  unfold planAppend
  by_cases h : pyRatLt { num := 3, den := 10 } s <;> simp [h]

theorem planScan_bound (template instruction : String) (maxE : Nat) :
    ∀ (l : List PlanMemory) (acc : List Example), acc.length < maxE →
      ∀ r, planScan template instruction maxE l acc = some r → r.length ≤ maxE := by
  intro l
  induction l with
  | nil =>
    intro acc hacc r hr
    simp [planScan] at hr
    rw [← hr]
    omega
  | cons m rest ih =>
    intro acc hacc r hr
    unfold planScan at hr
    by_cases hm : m.template = template
    · rw [if_pos hm] at hr
      cases hsim : similarity instruction m.instruction with
      | none => rw [hsim] at hr; cases hr
      | some s =>
        rw [hsim] at hr
        dsimp only at hr
        have hlen := planAppend_length acc m s
        by_cases hb : maxE ≤ (planAppend acc m s).length
        · rw [if_pos hb] at hr
          cases hr
          omega
        · rw [if_neg hb] at hr
          exact ih (planAppend acc m s) (by omega) r hr
    · rw [if_neg hm] at hr
      exact ih acc hacc r hr

theorem diffScan_bound (template : String) (maxE : Nat) :
    ∀ (l : List DiffMemory) (acc : List Example), acc.length ≤ maxE →
      (diffScan template maxE l acc).length ≤ maxE + 1 := by
  intro l
  induction l with
  | nil =>
    intro acc hacc
    simp [diffScan]
    omega
  | cons m rest ih =>
    intro acc hacc
    unfold diffScan
    by_cases hm : m.template = template
    · rw [if_pos hm]
      by_cases hb : maxE ≤ (acc ++ [Example.diff m.plan m.diff]).length
      · rw [if_pos hb]
        simp
        omega
      · rw [if_neg hb]
        refine ih _ ?_
        simp at hb ⊢
        omega
    · rw [if_neg hm]
      exact ih acc hacc

theorem planScan_no_hits (template instruction : String) (maxE : Nat) :
    ∀ (l : List PlanMemory) (acc : List Example),
      (∀ p ∈ l, p.template = template → interCard instruction p.instruction = 0) →
      ∀ r, planScan template instruction maxE l acc = some r → r = acc := by
  intro l
  induction l with
  | nil =>
    intro acc _ r hr
    simpa [planScan] using hr.symm
  | cons m rest ih =>
    intro acc hdis r hr
    unfold planScan at hr
    by_cases hm : m.template = template
    · rw [if_pos hm] at hr
      cases hsim : similarity instruction m.instruction with
      | none => rw [hsim] at hr; cases hr
      | some s =>
        rw [hsim] at hr
        dsimp only at hr
        have hint : interCard instruction m.instruction = 0 :=
          hdis m (List.mem_cons_self m rest) hm
        have hsval : s = { num := 0, den := unionCard instruction m.instruction } := by
          unfold similarity at hsim
          by_cases hu : unionCard instruction m.instruction = 0
          · rw [if_pos hu] at hsim; cases hsim
          · rw [if_neg hu] at hsim
            rw [hint] at hsim
            exact (Option.some_inj.mp hsim).symm
        have happ : planAppend acc m s = acc := by
          unfold planAppend
          rw [hsval]
          simp [pyRatLt]
        rw [happ] at hr
        by_cases hb : maxE ≤ acc.length
        · rw [if_pos hb] at hr
          exact (Option.some_inj.mp hr).symm
        · rw [if_neg hb] at hr
          exact ih acc (fun p hp => hdis p (List.mem_cons_of_mem m hp)) r hr
    · rw [if_neg hm] at hr
      exact ih acc (fun p hp => hdis p (List.mem_cons_of_mem m hp)) r hr

theorem diffScan_only_diffs (template : String) (maxE : Nat) :
    ∀ (l : List DiffMemory) (acc : List Example),
      (∀ e ∈ acc, e.isPlan = false) →
      ∀ e ∈ diffScan template maxE l acc, e.isPlan = false := by
  intro l
  induction l with
  | nil =>
    intro acc hacc e he
    exact hacc e (by simpa [diffScan] using he)
  | cons m rest ih =>
    intro acc hacc e he
    have hext : ∀ x ∈ acc ++ [Example.diff m.plan m.diff], x.isPlan = false := by
      intro x hx
      rcases List.mem_append.mp hx with hx | hx
      · exact hacc x hx
      · simp at hx
        rw [hx]
        rfl
    unfold diffScan at he
    by_cases hm : m.template = template
    · rw [if_pos hm] at he
      by_cases hb : maxE ≤ (acc ++ [Example.diff m.plan m.diff]).length
      · rw [if_pos hb] at he
        exact hext e he
      · rw [if_neg hb] at he
        exact ih _ hext e he
    · rw [if_neg hm] at he
      exact ih acc hacc e he

/-- C8 counterexample.  The claim says the returned list has at most
    max_examples elements.  With two stored flask plans identical to the
    query and one stored flask diff, the call with max_examples equal to two
    returns three examples: the diff loop appends its entry before checking
    the bound. -/
theorem similar_examples_overflow_cex :
    (getSimilarExamples plansFixture diffsFixture "flask" "add sum endpoint" 2).map
      List.length = some 3 := by decide

/-- C8 amended.  get_similar_examples scans plans most-recent-first, keeps
    template matches, includes a plan entry exactly when its Jaccard
    similarity strictly exceeds 0.3 while the quota is unfilled, then scans
    diffs most-recent-first appending each template match and only then
    checking the quota.  Consequently (for the max_examples values the engine
    uses, which are at least 1) a returned list has at most max_examples + 1
    elements, not max_examples; and a query whose word set meets no stored
    matching instruction yields no plan hints at all. -/
theorem similar_examples_bounds :
    (∀ (plans : List PlanMemory) (diffs : List DiffMemory)
        (template instruction : String) (maxE : Nat) (r : List Example),
      1 ≤ maxE →
      getSimilarExamples plans diffs template instruction maxE = some r →
      r.length ≤ maxE + 1) ∧
    (∀ (plans : List PlanMemory) (diffs : List DiffMemory)
        (template instruction : String) (maxE : Nat) (r : List Example),
      getSimilarExamples plans diffs template instruction maxE = some r →
      (∀ p ∈ plans, p.template = template → interCard instruction p.instruction = 0) →
      ∀ e ∈ r, e.isPlan = false) := by
  constructor
  · intro plans diffs template instruction maxE r hmax hr
    unfold getSimilarExamples at hr
    cases hps : planScan template instruction maxE plans.reverse [] with
    | none => rw [hps] at hr; cases hr
    | some acc =>
      rw [hps] at hr
      dsimp only at hr
      have hacc : acc.length ≤ maxE :=
        planScan_bound template instruction maxE plans.reverse []
          (by simpa using hmax) acc hps
      have hb := diffScan_bound template maxE diffs.reverse acc hacc
      rw [← Option.some_inj.mp hr]
      exact hb
  · intro plans diffs template instruction maxE r hr hdis
    unfold getSimilarExamples at hr
    cases hps : planScan template instruction maxE plans.reverse [] with
    | none => rw [hps] at hr; cases hr
    | some acc =>
      rw [hps] at hr
      dsimp only at hr
      have hacc : acc = [] :=
        planScan_no_hits template instruction maxE plans.reverse []
          (fun p hp => hdis p (List.mem_reverse.mp hp)) acc hps
      rw [← Option.some_inj.mp hr]
      exact diffScan_only_diffs template maxE diffs.reverse acc
        (by rw [hacc]; intro e he; cases he)

/-- C8 witness: the amended bound at the overflow fixture (three is within
    max_examples + 1) and the no-plan-hints clause at a disjoint query. -/
theorem similar_examples_bounds_witness :
    ([Example.plan "add sum endpoint" "p2" { num := 3, den := 3 },
      Example.plan "add sum endpoint" "p1" { num := 3, den := 3 },
      Example.diff "p" "d"] : List Example).length ≤ 2 + 1 ∧
    (Example.diff "p" "d").isPlan = false :=
  ⟨similar_examples_bounds.1 plansFixture diffsFixture "flask" "add sum endpoint" 2
      _ (by decide) (by decide),
   similar_examples_bounds.2 unrelatedPlanFixture diffsFixture "flask"
      "add sum endpoint" 2 [Example.diff "p" "d"] (by decide) (by decide)
      (Example.diff "p" "d") (by decide)⟩

/-! ### C9 -/

theorem planScan_raises_on_empty (template instruction : String) (maxE : Nat)
    (hq : wordList instruction = []) :
    ∀ (l : List PlanMemory) (acc : List Example), acc.length < maxE →
      (∃ p ∈ l, p.template = template ∧ wordList p.instruction = []) →
      planScan template instruction maxE l acc = none := by
  intro l
  induction l with
  | nil =>
    intro acc _ hex
    rcases hex with ⟨p, hp, _⟩
    cases hp
  | cons m rest ih =>
    intro acc hacc hex
    unfold planScan
    by_cases hm : m.template = template
    · rw [if_pos hm]
      by_cases hme : wordList m.instruction = []
      · have hu : unionCard instruction m.instruction = 0 := by
          unfold unionCard
          rw [hq, hme]
          rfl
        rw [show similarity instruction m.instruction = none from by
          unfold similarity
          rw [if_pos hu]]
      · have hu : unionCard instruction m.instruction ≠ 0 := by
          unfold unionCard
          rw [hq, List.nil_append]
          intro hz
          have h0 : (wordList m.instruction).dedup = [] := List.length_eq_zero.mp hz
          rw [show (wordList m.instruction).dedup = wordList m.instruction from by
            unfold wordList
            exact List.dedup_idem] at h0
          exact hme h0
        have hint : interCard instruction m.instruction = 0 := by
          unfold interCard
          rw [hq]
          rfl
        rw [show similarity instruction m.instruction =
            some { num := 0, den := unionCard instruction m.instruction } from by
          unfold similarity
          rw [if_neg hu, hint]]
        dsimp only
        have happ : planAppend acc m { num := 0, den := unionCard instruction m.instruction } = acc := by
          unfold planAppend
          simp [pyRatLt]
        rw [happ, if_neg (by omega)]
        refine ih acc hacc ?_
        rcases hex with ⟨p, hp, hpt, hpe⟩
        rcases List.mem_cons.mp hp with hp' | hp'
        · exact absurd (hp' ▸ hpe) hme
        · exact ⟨p, hp', hpt, hpe⟩
    · rw [if_neg hm]
      refine ih acc hacc ?_
      rcases hex with ⟨p, hp, hpt, hpe⟩
      rcases List.mem_cons.mp hp with hp' | hp'
      · exact absurd (hp' ▸ hpt) hm
      · exact ⟨p, hp', hpt, hpe⟩

/-- C9.  The similarity computation divides by the size of the union of the
    two word sets; when the stored plans of the queried template include one
    whose instruction word set is empty, the query made by call_coder (which
    passes the empty instruction string and max_examples 1) reaches that
    entry with an empty union and the division raises ZeroDivisionError
    instead of returning a list. -/
theorem empty_instruction_division_raises (plans : List PlanMemory)
    (diffs : List DiffMemory) (template : String)
    (hex : ∃ p ∈ plans, p.template = template ∧ wordList p.instruction = []) :
    callCoderMemoryQuery plans diffs template = none := by
  unfold callCoderMemoryQuery getSimilarExamples
  rw [planScan_raises_on_empty template "" 1 (by decide) plans.reverse []
    (by decide)
    (by
      rcases hex with ⟨p, hp, hpt, hpe⟩
      exact ⟨p, List.mem_reverse.mpr hp, hpt, hpe⟩)]

/-- C9 witness: the statement at a store holding one react plan with the
    empty instruction. -/
theorem empty_instruction_division_raises_witness :
    callCoderMemoryQuery emptyPlanFixture [] "react" = none :=
  empty_instruction_division_raises emptyPlanFixture [] "react"
    ⟨{ template := "react", instruction := "", plan := "p" }, by decide, by decide, by decide⟩

/-! ### C10 -/

/-- C10.  After a task's execution reaches its terminal handler, the TaskRun
    record is gone from the active-tasks map while the run's events are still
    in the events map and its metrics entries are untouched; get_task
    therefore returns nothing and the task endpoint answers 404 even though
    the events are retained. -/
theorem terminal_task_lookup_404 (o : Orch) (task_id : String) (repo : Repo)
    (d : String) (tr : TaskRun) (h : lookupA o.active_tasks task_id = some tr) :
    lookupA (executeTaskOrch o task_id repo d).1.active_tasks task_id = none ∧
    lookupA (executeTaskOrch o task_id repo d).1.task_events task_id =
      some (executeTask tr ((lookupA o.task_events task_id).getD []) repo d).events ∧
    (executeTaskOrch o task_id repo d).1.task_metrics = o.task_metrics ∧
    apiGetTask (executeTaskOrch o task_id repo d).1 task_id = Except.error 404 := by
  refine ⟨?_, ?_, ?_, ?_⟩
  · simp only [executeTaskOrch, h]
    exact lookupA_eraseA_self _ _
  · simp only [executeTaskOrch, h]
    exact lookupA_insertA_self _ _ _
  · simp only [executeTaskOrch, h]
  · simp only [apiGetTask, getTask, executeTaskOrch, h, lookupA_eraseA_self]

/-- C10 witness: the statement at the t1 fixture. -/
theorem terminal_task_lookup_404_witness :
    lookupA (executeTaskOrch orchFixture "t1" [] unparsableDiff).1.active_tasks
      "t1" = none ∧
    lookupA (executeTaskOrch orchFixture "t1" [] unparsableDiff).1.task_events
      "t1" = some (executeTask runFixture
        ((lookupA orchFixture.task_events "t1").getD []) [] unparsableDiff).events ∧
    (executeTaskOrch orchFixture "t1" [] unparsableDiff).1.task_metrics =
      orchFixture.task_metrics ∧
    apiGetTask (executeTaskOrch orchFixture "t1" [] unparsableDiff).1 "t1" =
      Except.error 404 :=
  terminal_task_lookup_404 orchFixture "t1" [] unparsableDiff runFixture (by decide)

end Gizmo
